import Mathlib

/-!
Verification of the urban fire spread model
(`urban-fire-prediction/backend/fire_model.py`).

The model is a pure numeric pipeline: an urban-canyon wind adjustment, a
Rothermel-style spread rate, a great-circle destination formula, and a
step loop producing fire zones plus summary statistics.  We embed it over
the real numbers: Python's `round(x, n)` becomes rounding to the nearest
multiple of `10 ^ (-n)`, `**` on reals becomes `Real.rpow`, and
`math.atan2` becomes the argument of a complex number.  The single
run-time failure mode the model can exhibit (a `ZeroDivisionError` in the
intensity computation, raised inside the step loop) is made explicit by
letting each zone computation return an `Except`.
-/

set_option maxHeartbeats 1000000

noncomputable section

namespace UrbanFire

/-- `round(x, n)` in real semantics: round to the nearest multiple of
`10 ^ (-n)` (ties upward). -/
def roundTo (n : ℕ) (x : ℝ) : ℝ := ((round (x * 10 ^ n) : ℤ) : ℝ) / 10 ^ n

/-- `math.radians`. -/
def radians (x : ℝ) : ℝ := x * (Real.pi / 180)

/-- `math.degrees`. -/
def degrees (x : ℝ) : ℝ := x * (180 / Real.pi)

/-- `math.atan2 y x`, embedded as the argument of the complex number
`x + y*i`; this agrees with `atan2` on all inputs (range `(-pi, pi]`). -/
def atan2 (y x : ℝ) : ℝ := Complex.arg ⟨x, y⟩

/- Constants of `UrbanFireModel.__init__`. -/

def CFD_CONSTANT : ℝ := 0.22

def FUEL_ENERGY : ℝ := 3000

def PACKING_RATIO : ℝ := 0.8

def WIND_COEFFICIENT : ℝ := 0.4

def WIND_EXPONENT : ℝ := 0.02526

def FUEL_MOISTURE : ℝ := 0.035

def FUEL_DENSITY : ℝ := 780

def FUEL_DEPTH : ℝ := 2

/-- `UrbanFireModel.calculate_urban_wind`. -/
def calculate_urban_wind (base_wind_speed building_height street_width : ℝ) : ℝ :=
  roundTo 2 (base_wind_speed * (1 + CFD_CONSTANT * (building_height / street_width)))

/-- The spread rate of `UrbanFireModel.calculate_spread_rate` before the
final 3-decimal rounding: `(numerator / denominator) * density_factor`. -/
def spread_rate_raw (wind_speed building_density : ℝ) : ℝ :=
  ((FUEL_ENERGY * PACKING_RATIO * (1 + WIND_COEFFICIENT * (wind_speed / 3.6) ^ WIND_EXPONENT)) /
      (FUEL_MOISTURE * FUEL_DEPTH * FUEL_DENSITY)) *
    (1 - building_density / 100)

/-- `UrbanFireModel.calculate_spread_rate`. -/
def calculate_spread_rate (wind_speed building_density : ℝ) : ℝ :=
  roundTo 3 (spread_rate_raw wind_speed building_density)

/-- `UrbanFireModel.calculate_spread_direction`: great-circle destination
point on a sphere of radius 6371000 m. -/
def calculate_spread_direction (origin_lat origin_lon angle_deg distance_m : ℝ) : ℝ × ℝ :=
  let R : ℝ := 6371000
  let lat1 := radians origin_lat
  let lon1 := radians origin_lon
  let angle_rad := radians angle_deg
  let lat2 := Real.arcsin (Real.sin lat1 * Real.cos (distance_m / R) +
    Real.cos lat1 * Real.sin (distance_m / R) * Real.cos angle_rad)
  let lon2 := lon1 + atan2 (Real.sin angle_rad * Real.sin (distance_m / R) * Real.cos lat1)
    (Real.cos (distance_m / R) - Real.sin lat1 * Real.sin lat2)
  (degrees lat2, degrees lon2)

/-- One fire zone of the simulation output. -/
structure FireZone where
  step : ℕ
  time : ℝ
  distance : ℝ
  intensity : ℝ
  perimeter : List (ℝ × ℝ)

/-- The `parameters` block of the simulation output. -/
structure SimParams where
  baseWind : ℝ
  urbanWind : ℝ
  spreadRate : ℝ
  buildingDensity : ℝ
  timeSteps : ℕ
  timeInterval : ℝ

/-- The `summary` block of the simulation output. -/
structure Summary where
  totalTime : ℝ
  maxDistance : ℝ
  affectedArea : ℝ

/-- The full result structure returned by `UrbanFireModel.simulate`. -/
structure SimResult where
  origin : ℝ × ℝ
  parameters : SimParams
  zones : List FireZone
  summary : Summary

/-- The fire zone built in one iteration of the step loop of
`UrbanFireModel.simulate` (for `1 ≤ step ≤ N`; the division
`step / time_steps` is the one that can raise, see `mkZone`). -/
def zonePure (lat lon sr : ℝ) (N : ℕ) (ti : ℝ) (step : ℕ) : FireZone :=
  { step := step
    time := (step : ℝ) * ti
    distance := roundTo 2 (sr * ti * (step : ℝ))
    intensity := roundTo 3 (1 - ((step : ℝ) / (N : ℝ)) * 0.5)
    perimeter := (List.range 16).map (fun (i : ℕ) =>
      calculate_spread_direction lat lon ((360 / 16) * (i : ℝ)) (sr * ti * (step : ℝ))) }

/-- The body of the step loop, with the Python `ZeroDivisionError` of
`step / time_steps` made explicit. -/
def mkZone (lat lon sr : ℝ) (N : ℕ) (ti : ℝ) (step : ℕ) : Except String FireZone :=
  if N = 0 then Except.error "ZeroDivisionError: division by zero"
  else Except.ok (zonePure lat lon sr N ti step)

/-- Effectful map over a list, propagating the first error (the step loop
accumulating `fire_zones`). -/
def mapExcept {α β : Type} (f : α → Except String β) : List α → Except String (List β)
  | [] => Except.ok []
  | a :: l => do
    let b ← f a
    let bs ← mapExcept f l
    pure (b :: bs)

/-- `UrbanFireModel.simulate`.  The step loop runs for
`step = 1, ..., time_steps`; any arithmetic error in a step aborts the
computation. -/
def simulate (origin_lat origin_lon wind_speed building_density : ℝ) (time_steps : ℕ)
    (time_interval : ℝ) : Except String SimResult := do
  let urban_wind := calculate_urban_wind wind_speed 20 15
  let spread_rate := calculate_spread_rate urban_wind building_density
  let fire_zones ← mapExcept
    (fun k => mkZone origin_lat origin_lon spread_rate time_steps time_interval (k + 1))
    (List.range time_steps)
  pure
    { origin := (origin_lat, origin_lon)
      parameters :=
        { baseWind := wind_speed
          urbanWind := urban_wind
          spreadRate := spread_rate
          buildingDensity := building_density
          timeSteps := time_steps
          timeInterval := time_interval }
      zones := fire_zones
      summary :=
        { totalTime := (time_steps : ℝ) * time_interval
          maxDistance := roundTo 2 (spread_rate * time_interval * (time_steps : ℝ))
          affectedArea :=
            roundTo 2 (Real.pi * (spread_rate * time_interval * (time_steps : ℝ)) ^ 2) } }

/-- The value `simulate` returns whenever no step raises (proved below:
it never raises, for any `time_steps`). -/
def simPure (lat lon w d : ℝ) (N : ℕ) (ti : ℝ) : SimResult :=
  let urban_wind := calculate_urban_wind w 20 15
  let spread_rate := calculate_spread_rate urban_wind d
  { origin := (lat, lon)
    parameters :=
      { baseWind := w
        urbanWind := urban_wind
        spreadRate := spread_rate
        buildingDensity := d
        timeSteps := N
        timeInterval := ti }
    zones := (List.range N).map (fun k => zonePure lat lon spread_rate N ti (k + 1))
    summary :=
      { totalTime := (N : ℝ) * ti
        maxDistance := roundTo 2 (spread_rate * ti * (N : ℝ))
        affectedArea := roundTo 2 (Real.pi * (spread_rate * ti * (N : ℝ)) ^ 2) } }

/-- The zones of a simulation outcome (empty when the run failed). -/
def zonesOf : Except String SimResult → List FireZone
  | Except.ok r => r.zones
  | Except.error _ => []

/-- The intensity of the `k`-th zone of a simulation outcome, if any. -/
def zoneIntensity (e : Except String SimResult) (k : ℕ) : Option ℝ :=
  ((zonesOf e)[k]?).map FireZone.intensity

/-! ### Rounding lemmas -/

lemma round_mono_le {x y : ℝ} (h : x ≤ y) : round x ≤ round y := by
  rw [round_eq, round_eq]
  exact Int.floor_mono (by linarith)

lemma round_lt_of_add_one_le {x y : ℝ} (h : x + 1 ≤ y) : round x < round y := by
  rw [round_eq, round_eq]
  have h1 : (⌊x + 1 / 2⌋ : ℤ) + 1 = ⌊x + 1 / 2 + 1⌋ := (Int.floor_add_one (x + 1 / 2)).symm
  have h2 : ⌊x + 1 / 2 + 1⌋ ≤ ⌊y + 1 / 2⌋ := Int.floor_mono (by linarith)
  omega

lemma round_eq_of_bounds {x : ℝ} {m : ℤ} (h1 : (m : ℝ) ≤ x + 1 / 2) (h2 : x + 1 / 2 < m + 1) :
    round x = m := by
  rw [round_eq]
  exact Int.floor_eq_iff.mpr ⟨h1, h2⟩

lemma roundTo_mono {n : ℕ} {x y : ℝ} (h : x ≤ y) : roundTo n x ≤ roundTo n y := by
  unfold roundTo
  have hp : (0 : ℝ) < 10 ^ n := by positivity
  have hr : round (x * 10 ^ n) ≤ round (y * 10 ^ n) :=
    round_mono_le (mul_le_mul_of_nonneg_right h hp.le)
  exact div_le_div_of_le_of_nonneg (by exact_mod_cast hr) hp.le

lemma roundTo_lt {n : ℕ} {x y : ℝ} (h : x + 1 / 10 ^ n ≤ y) : roundTo n x < roundTo n y := by
  unfold roundTo
  have hp : (0 : ℝ) < 10 ^ n := by positivity
  have hx : x * 10 ^ n + 1 ≤ y * 10 ^ n := by
    have := mul_le_mul_of_nonneg_right h hp.le
    have hne : (10 : ℝ) ^ n ≠ 0 := hp.ne'
    field_simp at this
    linarith
  have hr : round (x * 10 ^ n) < round (y * 10 ^ n) := round_lt_of_add_one_le hx
  exact div_lt_div_of_pos_right (by exact_mod_cast hr) hp

/-- When `x` is exactly on the rounding grid, rounding is the identity. -/
lemma roundTo_eq_self {n : ℕ} {x : ℝ} {m : ℤ} (h : x * 10 ^ n = (m : ℝ)) : roundTo n x = x := by
  unfold roundTo
  rw [h, round_intCast]
  have hp : (0 : ℝ) < 10 ^ n := by positivity
  rw [div_eq_iff hp.ne']
  exact h.symm

lemma roundTo_zero (n : ℕ) : roundTo n 0 = 0 := by
  unfold roundTo
  rw [zero_mul, round_zero]
  simp

lemma roundTo_nonpos {n : ℕ} {x : ℝ} (h : x ≤ 0) : roundTo n x ≤ 0 := by
  have := roundTo_mono (n := n) h
  rwa [roundTo_zero] at this

lemma roundTo_nonneg {n : ℕ} {x : ℝ} (h : 0 ≤ x) : 0 ≤ roundTo n x := by
  have := roundTo_mono (n := n) h
  rwa [roundTo_zero] at this

/-! ### The simulation never fails -/

lemma mapExcept_ok {α β : Type} (f : α → Except String β) (g : α → β)
    (h : ∀ a, f a = Except.ok (g a)) : ∀ l : List α, mapExcept f l = Except.ok (l.map g) := by
  intro l
  induction l with
  | nil => rfl
  | cons a l ih =>
    show (do
      let b ← f a
      let bs ← mapExcept f l
      pure (b :: bs)) = Except.ok ((a :: l).map g)
    rw [h a, ih]
    rfl

/-- The division `step / time_steps` is evaluated only inside the step
loop, which is empty when `time_steps = 0`: `simulate` never raises. -/
lemma simulate_eq_ok (lat lon w d : ℝ) (N : ℕ) (ti : ℝ) :
    simulate lat lon w d N ti = Except.ok (simPure lat lon w d N ti) := by
  cases N with
  | zero =>
    simp only [simulate, simPure]
    rw [List.range_zero]
    rfl
  | succ m =>
    simp only [simulate, simPure]
    rw [mapExcept_ok _
      (fun k => zonePure lat lon
        (calculate_spread_rate (calculate_urban_wind w 20 15) d) (m + 1) ti (k + 1))
      (fun a => by simp [mkZone])]
    rfl

lemma zonesOf_simulate (lat lon w d : ℝ) (N : ℕ) (ti : ℝ) :
    zonesOf (simulate lat lon w d N ti) =
      (List.range N).map (fun k =>
        zonePure lat lon (calculate_spread_rate (calculate_urban_wind w 20 15) d) N ti (k + 1)) := by
  rw [simulate_eq_ok]
  rfl

/-! ### Zero-distance projection -/

lemma abs_radians_le_half_pi {lat : ℝ} (h1 : -90 ≤ lat) (h2 : lat ≤ 90) :
    -(Real.pi / 2) ≤ radians lat ∧ radians lat ≤ Real.pi / 2 := by
  unfold radians
  have hp := Real.pi_pos
  constructor
  · nlinarith
  · nlinarith

/-- Moving a zero distance from a valid latitude leaves the point fixed. -/
lemma spread_direction_zero (lat lon b : ℝ) (h1 : -90 ≤ lat) (h2 : lat ≤ 90) :
    calculate_spread_direction lat lon b 0 = (lat, lon) := by
  obtain ⟨hl, hr⟩ := abs_radians_le_half_pi h1 h2
  simp only [calculate_spread_direction]
  have h0 : (0 : ℝ) / 6371000 = 0 := by norm_num
  rw [h0, Real.cos_zero, Real.sin_zero]
  have hsimp : Real.sin (radians lat) * 1 + Real.cos (radians lat) * 0 * Real.cos (radians b) =
      Real.sin (radians lat) := by ring
  rw [hsimp, Real.arcsin_sin hl hr]
  have hy : Real.sin (radians b) * 0 * Real.cos (radians lat) = 0 := by ring
  rw [hy]
  have hx : (0 : ℝ) ≤ 1 - Real.sin (radians lat) * Real.sin (radians lat) := by
    nlinarith [Real.sin_le_one (radians lat), Real.neg_one_le_sin (radians lat)]
  have harg : atan2 0 (1 - Real.sin (radians lat) * Real.sin (radians lat)) = 0 := by
    unfold atan2
    exact Complex.arg_eq_zero_iff.mpr ⟨hx, rfl⟩
  rw [harg, add_zero]
  have hdeg : ∀ x : ℝ, degrees (radians x) = x := by
    intro x
    unfold degrees radians
    field_simp
  rw [hdeg, hdeg]

/-! ### Claim theorems -/

/-- C9: for every latitude in −90..90, longitude in −180..180 and bearing,
`calculate_spread_direction lat lon bearing 0` returns exactly `(lat, lon)`:
zero distance produces no movement. -/
theorem C9_zero_distance_no_movement (lat lon b : ℝ) (h1 : -90 ≤ lat) (h2 : lat ≤ 90)
    (h3 : -180 ≤ lon) (h4 : lon ≤ 180) :
    calculate_spread_direction lat lon b 0 = (lat, lon) :=
  spread_direction_zero lat lon b h1 h2

/-- Witness for C9 at the Los Angeles origin with bearing 45°. -/
theorem C9_zero_distance_no_movement_witness :
    (-90 ≤ (34.0522 : ℝ)) ∧ ((34.0522 : ℝ) ≤ 90) ∧
      (-180 ≤ (-118.2437 : ℝ)) ∧ ((-118.2437 : ℝ) ≤ 180) ∧
      calculate_spread_direction 34.0522 (-118.2437) 45 0 = (34.0522, -118.2437) :=
  ⟨by norm_num, by norm_num, by norm_num, by norm_num,
    C9_zero_distance_no_movement 34.0522 (-118.2437) 45 (by norm_num) (by norm_num)
      (by norm_num) (by norm_num)⟩

/-- C8: for every base wind `b` and positive height and width,
`calculate_urban_wind b h w = round2 (b * (1 + 0.22 * (h / w)))`, and with the
defaults `h = 20`, `w = 15` and base wind 15 the result is exactly 19.4. -/
theorem C8_urban_wind_formula (b h w : ℝ) (hh : 0 < h) (hw : 0 < w) :
    calculate_urban_wind b h w = roundTo 2 (b * (1 + 0.22 * (h / w))) ∧
    calculate_urban_wind 15 20 15 = 19.4 := by
  constructor
  · simp only [calculate_urban_wind, CFD_CONSTANT]
  · unfold calculate_urban_wind
    have h194 : (15 : ℝ) * (1 + CFD_CONSTANT * (20 / 15)) = 19.4 := by
      norm_num [CFD_CONSTANT]
    rw [h194]
    exact roundTo_eq_self (m := 1940) (by norm_num)

/-- Witness for C8 at base wind 15 with the default canyon geometry. -/
theorem C8_urban_wind_formula_witness :
    ((0 : ℝ) < 20) ∧ ((0 : ℝ) < 15) ∧
      (calculate_urban_wind 15 20 15 = roundTo 2 (15 * (1 + 0.22 * (20 / 15))) ∧
        calculate_urban_wind 15 20 15 = 19.4) :=
  ⟨by norm_num, by norm_num, C8_urban_wind_formula 15 20 15 (by norm_num) (by norm_num)⟩

/-- C4: building density 100 makes `calculate_spread_rate` return exactly 0,
makes every zone's distance 0, and makes all 16 perimeter points of every
zone equal the origin exactly. -/
theorem C4_density_100_degenerates (lat lon w : ℝ) (N : ℕ) (ti : ℝ)
    (hw : 0 ≤ w) (h1 : -90 ≤ lat) (h2 : lat ≤ 90) :
    calculate_spread_rate w 100 = 0 ∧
    ∀ z ∈ zonesOf (simulate lat lon w 100 N ti),
      z.distance = 0 ∧ z.perimeter = List.replicate 16 (lat, lon) := by
  have hraw : ∀ ws : ℝ, spread_rate_raw ws 100 = 0 := by
    intro ws
    unfold spread_rate_raw
    norm_num
  have hzero : ∀ ws : ℝ, calculate_spread_rate ws 100 = 0 := by
    intro ws
    unfold calculate_spread_rate
    rw [hraw, roundTo_zero]
  refine ⟨hzero w, ?_⟩
  intro z hz
  rw [zonesOf_simulate] at hz
  obtain ⟨k, hk, rfl⟩ := List.mem_map.mp hz
  rw [hzero]
  simp only [zonePure]
  constructor
  · rw [zero_mul, zero_mul, roundTo_zero]
  · rw [List.eq_replicate_iff]
    refine ⟨by rw [List.length_map, List.length_range], ?_⟩
    intro p hp
    obtain ⟨i, hi, rfl⟩ := List.mem_map.mp hp
    rw [zero_mul, zero_mul]
    exact spread_direction_zero lat lon _ h1 h2

/-- Witness for C4 at a one-step simulation from the origin `(10, 20)`. -/
theorem C4_density_100_degenerates_witness :
    ((0 : ℝ) ≤ 15) ∧ (-90 ≤ (10 : ℝ)) ∧ ((10 : ℝ) ≤ 90) ∧
      (calculate_spread_rate 15 100 = 0 ∧
        ∀ z ∈ zonesOf (simulate 10 20 15 100 1 5),
          z.distance = 0 ∧ z.perimeter = List.replicate 16 (10, 20)) :=
  ⟨by norm_num, by norm_num, by norm_num,
    C4_density_100_degenerates 10 20 15 1 5 (by norm_num) (by norm_num) (by norm_num)⟩

/-- C5: for every wind speed `w ≥ 0` and density `d`, `calculate_spread_rate`
equals the literal Rothermel formula rounded to 3 decimals; `0 ^ 0.02526 = 0`
so at `w = 0` the bracketed term is exactly 1; and `simulate` feeds the
urban-adjusted wind, never the base wind, into the spread rate. -/
theorem C5_spread_rate_formula (w d : ℝ) (hw : 0 ≤ w) :
    calculate_spread_rate w d =
      roundTo 3 (3000 * 0.8 * (1 + 0.4 * ((w / 3.6) ^ (0.02526 : ℝ))) / (0.035 * 2 * 780) *
        (1 - d / 100)) ∧
    ((0 : ℝ) / 3.6) ^ (0.02526 : ℝ) = 0 ∧
    calculate_spread_rate 0 d =
      roundTo 3 (3000 * 0.8 * 1 / (0.035 * 2 * 780) * (1 - d / 100)) ∧
    ∀ (lat lon : ℝ) (N : ℕ) (ti : ℝ),
      (simulate lat lon w d N ti).toOption.map (fun r => r.parameters.spreadRate) =
        some (calculate_spread_rate (calculate_urban_wind w 20 15) d) := by
  have hz : ((0 : ℝ) / 3.6) ^ (0.02526 : ℝ) = 0 := by
    rw [(by norm_num : (0 : ℝ) / 3.6 = 0)]
    exact Real.zero_rpow (by norm_num)
  refine ⟨?_, hz, ?_, ?_⟩
  · simp only [calculate_spread_rate, spread_rate_raw, FUEL_ENERGY, PACKING_RATIO,
      WIND_COEFFICIENT, WIND_EXPONENT, FUEL_MOISTURE, FUEL_DEPTH, FUEL_DENSITY]
  · unfold calculate_spread_rate
    have h0 : spread_rate_raw 0 d = 3000 * 0.8 * 1 / (0.035 * 2 * 780) * (1 - d / 100) := by
      simp only [spread_rate_raw, FUEL_ENERGY, PACKING_RATIO, WIND_COEFFICIENT,
        WIND_EXPONENT, FUEL_MOISTURE, FUEL_DEPTH, FUEL_DENSITY]
      rw [hz]
      ring
    rw [h0]
  · intro lat lon N ti
    rw [simulate_eq_ok]
    rfl

/-- Witness for C5 at wind 0. -/
theorem C5_spread_rate_formula_witness :
    ((0 : ℝ) ≤ 0) ∧
      (calculate_spread_rate 0 40 =
          roundTo 3 (3000 * 0.8 * (1 + 0.4 * (((0 : ℝ) / 3.6) ^ (0.02526 : ℝ))) /
            (0.035 * 2 * 780) * (1 - 40 / 100)) ∧
        ((0 : ℝ) / 3.6) ^ (0.02526 : ℝ) = 0 ∧
        calculate_spread_rate 0 40 =
          roundTo 3 (3000 * 0.8 * 1 / (0.035 * 2 * 780) * (1 - 40 / 100)) ∧
        ∀ (lat lon : ℝ) (N : ℕ) (ti : ℝ),
          (simulate lat lon 0 40 N ti).toOption.map (fun r => r.parameters.spreadRate) =
            some (calculate_spread_rate (calculate_urban_wind 0 20 15) 40)) :=
  ⟨le_refl 0, C5_spread_rate_formula 0 40 (le_refl 0)⟩

/-- C1 (amended): with `time_steps = 0` the step loop never executes, so the
intensity division is never evaluated: `simulate` returns a normal result
with an empty zones list and an all-zero summary, instead of failing. -/
theorem C1_zero_time_steps_returns (lat lon w d ti : ℝ) :
    simulate lat lon w d 0 ti = Except.ok (simPure lat lon w d 0 ti) ∧
    (simPure lat lon w d 0 ti).zones = [] ∧
    (simPure lat lon w d 0 ti).summary.totalTime = 0 ∧
    (simPure lat lon w d 0 ti).summary.maxDistance = 0 ∧
    (simPure lat lon w d 0 ti).summary.affectedArea = 0 := by
  refine ⟨simulate_eq_ok lat lon w d 0 ti, ?_, ?_, ?_, ?_⟩
  · simp [simPure]
  · simp [simPure]
  · simp only [simPure]
    rw [(by push_cast; ring : calculate_spread_rate (calculate_urban_wind w 20 15) d *
      ti * ((0 : ℕ) : ℝ) = 0), roundTo_zero]
  · simp only [simPure]
    rw [(by push_cast; ring : calculate_spread_rate (calculate_urban_wind w 20 15) d *
      ti * ((0 : ℕ) : ℝ) = 0)]
    rw [(by ring : Real.pi * (0 : ℝ) ^ 2 = 0), roundTo_zero]

/-- Counterexample to C1 as stated: at `time_steps = 0` the simulation
does return a result (it does not fail with a division-by-zero error). -/
theorem C1_counterexample :
    (simulate 34.0522 (-118.2437) 15 40 0 5).toOption.isSome = true := by
  rw [simulate_eq_ok]
  rfl

/-- C2 (amended): every fire zone's intensity lies in the closed interval
`[0.5, 1.0]`. -/
theorem C2_intensity_bounds (lat lon w d : ℝ) (N : ℕ) (ti : ℝ) (hN : 1 ≤ N) :
    ∀ z ∈ zonesOf (simulate lat lon w d N ti), 0.5 ≤ z.intensity ∧ z.intensity ≤ 1 := by
  intro z hz
  rw [zonesOf_simulate] at hz
  obtain ⟨k, hk, rfl⟩ := List.mem_map.mp hz
  have hkN : (k : ℕ) + 1 ≤ N := List.mem_range.mp hk
  have hN0 : (0 : ℝ) < (N : ℝ) := by
    have : 0 < N := lt_of_lt_of_le one_pos hN
    exact_mod_cast this
  simp only [zonePure]
  have hq1 : ((k + 1 : ℕ) : ℝ) / (N : ℝ) ≤ 1 := by
    rw [div_le_one hN0]
    exact_mod_cast hkN
  have hq0 : 0 ≤ ((k + 1 : ℕ) : ℝ) / (N : ℝ) := by positivity
  constructor
  · calc (0.5 : ℝ) = roundTo 3 0.5 := (roundTo_eq_self (m := 500) (by norm_num)).symm
      _ ≤ roundTo 3 (1 - ((k + 1 : ℕ) : ℝ) / (N : ℝ) * 0.5) := roundTo_mono (by nlinarith)
  · calc roundTo 3 (1 - ((k + 1 : ℕ) : ℝ) / (N : ℝ) * 0.5) ≤ roundTo 3 1 :=
        roundTo_mono (by nlinarith)
      _ = 1 := roundTo_eq_self (m := 1000) (by norm_num)

/-- Witness for C2 on a one-step simulation. -/
theorem C2_intensity_bounds_witness :
    (1 ≤ 1) ∧
      ∀ z ∈ zonesOf (simulate 0 0 15 40 1 5), 0.5 ≤ z.intensity ∧ z.intensity ≤ 1 :=
  ⟨le_refl 1, C2_intensity_bounds 0 0 15 40 1 5 (le_refl 1)⟩

/-- Counterexample to C2 as stated: the final zone's intensity is exactly
0.5, so it is not strictly greater than 0.5. -/
theorem C2_counterexample :
    ¬ ∀ z ∈ zonesOf (simulate 0 0 15 40 1 5), 0.5 < z.intensity := by
  intro h
  have h1 : zonesOf (simulate 0 0 15 40 1 5) =
      [zonePure 0 0 (calculate_spread_rate (calculate_urban_wind 15 20 15) 40) 1 5 1] := by
    rw [zonesOf_simulate]
    rfl
  have hz := h _ (by rw [h1]; exact List.mem_singleton_self _)
  simp only [zonePure] at hz
  rw [(by norm_num : 1 - ((1 : ℕ) : ℝ) / ((1 : ℕ) : ℝ) * 0.5 = 0.5),
    roundTo_eq_self (m := 500) (by norm_num)] at hz
  exact lt_irrefl _ hz

/-- For nonnegative wind, the pre-rounding spread rate is strictly negative
as soon as the building density exceeds 100. -/
lemma spread_rate_raw_neg {ws d : ℝ} (hw : 0 ≤ ws) (hd : 100 < d) :
    spread_rate_raw ws d < 0 := by
  unfold spread_rate_raw
  have hx : (0 : ℝ) ≤ (ws / 3.6) ^ WIND_EXPONENT :=
    Real.rpow_nonneg (by positivity) _
  apply mul_neg_of_pos_of_neg
  · apply div_pos
    · simp only [FUEL_ENERGY, PACKING_RATIO, WIND_COEFFICIENT]
      nlinarith
    · simp only [FUEL_MOISTURE, FUEL_DEPTH, FUEL_DENSITY]
      norm_num
  · linarith

/-- For nonnegative wind and density above 100, the rounded spread rate is
nonpositive. -/
lemma spread_rate_nonpos {ws d : ℝ} (hw : 0 ≤ ws) (hd : 100 < d) :
    calculate_spread_rate ws d ≤ 0 := by
  unfold calculate_spread_rate
  exact roundTo_nonpos (spread_rate_raw_neg hw hd).le

/-- The urban-adjusted wind of a nonnegative base wind is nonnegative. -/
lemma urban_wind_nonneg {w : ℝ} (hw : 0 ≤ w) : 0 ≤ calculate_urban_wind w 20 15 := by
  unfold calculate_urban_wind
  apply roundTo_nonneg
  have : (0 : ℝ) ≤ 1 + CFD_CONSTANT * (20 / 15) := by norm_num [CFD_CONSTANT]
  nlinarith

/-- C10 (amended): for density strictly above 100 (and nonnegative wind)
the pre-rounding spread rate is strictly negative, `calculate_spread_rate`
returns a nonpositive value (rounding can yield exactly 0 for densities
just above 100), and `simulate` (with nonnegative interval) still returns
a normal result whose zones all have nonpositive distances. -/
theorem C10_density_above_100 (w d : ℝ) (hw : 0 ≤ w) (hd : 100 < d) :
    spread_rate_raw w d < 0 ∧
    calculate_spread_rate w d ≤ 0 ∧
    ∀ (lat lon : ℝ) (N : ℕ) (ti : ℝ), 0 ≤ ti →
      simulate lat lon w d N ti = Except.ok (simPure lat lon w d N ti) ∧
      ∀ z ∈ zonesOf (simulate lat lon w d N ti), z.distance ≤ 0 := by
  refine ⟨spread_rate_raw_neg hw hd, spread_rate_nonpos hw hd, ?_⟩
  intro lat lon N ti hti
  refine ⟨simulate_eq_ok lat lon w d N ti, ?_⟩
  intro z hz
  rw [zonesOf_simulate] at hz
  obtain ⟨k, hk, rfl⟩ := List.mem_map.mp hz
  simp only [zonePure]
  apply roundTo_nonpos
  have hsr : calculate_spread_rate (calculate_urban_wind w 20 15) d ≤ 0 :=
    spread_rate_nonpos (urban_wind_nonneg hw) hd
  have hstep : (0 : ℝ) ≤ ((k + 1 : ℕ) : ℝ) := by positivity
  have h1 : calculate_spread_rate (calculate_urban_wind w 20 15) d * ti ≤ 0 :=
    mul_nonpos_of_nonpos_of_nonneg hsr hti
  exact mul_nonpos_of_nonpos_of_nonneg h1 hstep

/-- Witness for C10 at wind 0, density 150, a one-step simulation. -/
theorem C10_density_above_100_witness :
    ((0 : ℝ) ≤ 0) ∧ ((100 : ℝ) < 150) ∧
      (spread_rate_raw 0 150 < 0 ∧
        calculate_spread_rate 0 150 ≤ 0 ∧
        ∀ (lat lon : ℝ) (N : ℕ) (ti : ℝ), 0 ≤ ti →
          simulate lat lon 0 150 N ti = Except.ok (simPure lat lon 0 150 N ti) ∧
          ∀ z ∈ zonesOf (simulate lat lon 0 150 N ti), z.distance ≤ 0) :=
  ⟨le_refl 0, by norm_num, C10_density_above_100 0 150 (le_refl 0) (by norm_num)⟩

/-- Counterexample to C10 as stated: at wind 0 and density 100.0001 the
density factor is negative, yet the 3-decimal rounding returns exactly 0,
not a strictly negative spread rate. -/
theorem C10_counterexample :
    (100 : ℝ) < 100.0001 ∧ calculate_spread_rate 0 100.0001 = 0 := by
  refine ⟨by norm_num, ?_⟩
  unfold calculate_spread_rate
  have hraw : spread_rate_raw 0 100.0001 =
      3000 * 0.8 / (0.035 * 2 * 780) * (1 - 100.0001 / 100) := by
    simp only [spread_rate_raw, FUEL_ENERGY, PACKING_RATIO, WIND_COEFFICIENT,
      WIND_EXPONENT, FUEL_MOISTURE, FUEL_DEPTH, FUEL_DENSITY]
    rw [(by norm_num : (0 : ℝ) / 3.6 = 0), Real.zero_rpow (by norm_num)]
    ring
  rw [hraw]
  unfold roundTo
  rw [round_eq_of_bounds (m := 0) (by norm_num) (by norm_num)]
  norm_num

/-- Indexing the simulated zones: the `k`-th zone (0-based) is the zone of
step `k + 1`. -/
lemma zonesOf_getElem (lat lon w d : ℝ) (N : ℕ) (ti : ℝ) {k : ℕ} (hk : k < N) :
    (zonesOf (simulate lat lon w d N ti))[k]? =
      some (zonePure lat lon (calculate_spread_rate (calculate_urban_wind w 20 15) d)
        N ti (k + 1)) := by
  rw [zonesOf_simulate, List.getElem?_map, List.getElem?_range hk]
  rfl

/-- Inversion for `zonesOf_getElem`. -/
lemma zonesOf_getElem_inv {lat lon w d : ℝ} {N : ℕ} {ti : ℝ} {k : ℕ} {z : FireZone}
    (h : (zonesOf (simulate lat lon w d N ti))[k]? = some z) :
    k < N ∧
      z = zonePure lat lon (calculate_spread_rate (calculate_urban_wind w 20 15) d)
        N ti (k + 1) := by
  by_cases hk : k < N
  · rw [zonesOf_getElem lat lon w d N ti hk] at h
    exact ⟨hk, (Option.some_inj.mp h).symm⟩
  · rw [zonesOf_simulate, List.getElem?_eq_none] at h
    · exact absurd h (by simp)
    · rw [List.length_map, List.length_range]
      omega

/-- C7: a valid simulation has exactly `N` zones in ascending step order,
`zones[k].step = k + 1`, `zones[k].time = (k+1) * interval`, distance
`round2 (spread_rate * interval * (k+1))` growing linearly in the step,
and a perimeter of exactly 16 points at bearings `i * 22.5` degrees. -/
theorem C7_zone_structure (lat lon w d : ℝ) (N : ℕ) (ti : ℝ) (hN : 1 ≤ N) :
    (zonesOf (simulate lat lon w d N ti)).length = N ∧
    ∀ (k : ℕ) (z : FireZone), (zonesOf (simulate lat lon w d N ti))[k]? = some z →
      z.step = k + 1 ∧
      z.time = ((k : ℝ) + 1) * ti ∧
      z.distance =
        roundTo 2 (calculate_spread_rate (calculate_urban_wind w 20 15) d * ti * ((k : ℝ) + 1)) ∧
      z.perimeter.length = 16 ∧
      ∀ (i : ℕ) (p : ℝ × ℝ), z.perimeter[i]? = some p →
        p = calculate_spread_direction lat lon (22.5 * (i : ℝ))
          (calculate_spread_rate (calculate_urban_wind w 20 15) d * ti * ((k : ℝ) + 1)) := by
  constructor
  · rw [zonesOf_simulate, List.length_map, List.length_range]
  · intro k z hz
    obtain ⟨hk, rfl⟩ := zonesOf_getElem_inv hz
    simp only [zonePure]
    refine ⟨by trivial, by push_cast; ring_nf, by push_cast; ring_nf, ?_, ?_⟩
    · rw [List.length_map, List.length_range]
    · intro i p hp
      rw [List.getElem?_map] at hp
      by_cases hi : i < 16
      · rw [List.getElem?_range hi] at hp
        simp only [Option.map_some'] at hp
        rw [← Option.some_inj.mp hp]
        push_cast
        norm_num
      · rw [List.getElem?_eq_none (by rw [List.length_range]; omega)] at hp
        exact absurd hp (by simp)

/-- Witness for C7 on a one-step simulation. -/
theorem C7_zone_structure_witness :
    (1 ≤ 1) ∧
      ((zonesOf (simulate 0 0 15 40 1 5)).length = 1 ∧
        ∀ (k : ℕ) (z : FireZone), (zonesOf (simulate 0 0 15 40 1 5))[k]? = some z →
          z.step = k + 1 ∧
          z.time = ((k : ℝ) + 1) * 5 ∧
          z.distance =
            roundTo 2 (calculate_spread_rate (calculate_urban_wind 15 20 15) 40 * 5 * ((k : ℝ) + 1)) ∧
          z.perimeter.length = 16 ∧
          ∀ (i : ℕ) (p : ℝ × ℝ), z.perimeter[i]? = some p →
            p = calculate_spread_direction 0 0 (22.5 * (i : ℝ))
              (calculate_spread_rate (calculate_urban_wind 15 20 15) 40 * 5 * ((k : ℝ) + 1))) :=
  ⟨le_refl 1, C7_zone_structure 0 0 15 40 1 5 (le_refl 1)⟩

/-- C6 (amended): `zones[k].intensity = round3 (1 - ((k+1)/N) * 0.5)` and the
last zone's intensity is exactly 0.5 (so `time_steps = 1` gives a single
zone of intensity 0.5); when `N ≤ 500` — per-step decrement `0.5/N` at
least the `0.001` rounding grid — the intensities are strictly decreasing
and the first is strictly below 1.0. -/
theorem C6_intensity_profile (lat lon w d : ℝ) (N : ℕ) (ti : ℝ) (hN : 1 ≤ N) :
    (∀ (k : ℕ) (z : FireZone), (zonesOf (simulate lat lon w d N ti))[k]? = some z →
        z.intensity = roundTo 3 (1 - (((k : ℝ) + 1) / (N : ℝ)) * 0.5)) ∧
    ((zonesOf (simulate lat lon w d N ti)).getLast?.map FireZone.intensity = some 0.5) ∧
    (N ≤ 500 →
      (∀ (k : ℕ) (z1 z2 : FireZone),
          (zonesOf (simulate lat lon w d N ti))[k]? = some z1 →
          (zonesOf (simulate lat lon w d N ti))[k + 1]? = some z2 →
          z2.intensity < z1.intensity) ∧
      ∀ z : FireZone, (zonesOf (simulate lat lon w d N ti)).head? = some z →
        z.intensity < 1) := by
  have hN0 : (0 : ℝ) < (N : ℝ) := by
    have : 0 < N := lt_of_lt_of_le one_pos hN
    exact_mod_cast this
  refine ⟨?_, ?_, ?_⟩
  · intro k z hz
    obtain ⟨hk, rfl⟩ := zonesOf_getElem_inv hz
    simp only [zonePure]
    push_cast
    ring_nf
  · rcases N with _ | m
    · exact absurd hN (by norm_num)
    · rw [zonesOf_simulate, List.getLast?_map, List.range_succ, List.getLast?_concat]
      simp only [Option.map_some', zonePure]
      rw [(by
        have hne : ((m + 1 : ℕ) : ℝ) ≠ 0 := by positivity
        field_simp
        norm_num : 1 - ((m + 1 : ℕ) : ℝ) / ((m + 1 : ℕ) : ℝ) * 0.5 = 0.5),
        roundTo_eq_self (m := 500) (by norm_num)]
  · intro h500
    have hN500 : (N : ℝ) ≤ 500 := by exact_mod_cast h500
    constructor
    · intro k z1 z2 hz1 hz2
      obtain ⟨hk1, rfl⟩ := zonesOf_getElem_inv hz1
      obtain ⟨hk2, rfl⟩ := zonesOf_getElem_inv hz2
      simp only [zonePure]
      apply roundTo_lt
      have hgap : (1 : ℝ) / 10 ^ 3 ≤ 0.5 / (N : ℝ) := by
        rw [div_le_div_iff (by norm_num) hN0]
        nlinarith
      have hsplit : ((k + 1 + 1 : ℕ) : ℝ) / (N : ℝ) =
          ((k + 1 : ℕ) : ℝ) / (N : ℝ) + 1 / (N : ℝ) := by
        push_cast
        field_simp
      rw [hsplit]
      have : (1 : ℝ) / (N : ℝ) * 0.5 = 0.5 / (N : ℝ) := by ring
      nlinarith
    · intro z hz
      rw [List.head?_eq_getElem?] at hz
      obtain ⟨hk, rfl⟩ := zonesOf_getElem_inv hz
      simp only [zonePure]
      have hq : (0.001 : ℝ) ≤ ((0 + 1 : ℕ) : ℝ) / (N : ℝ) * 0.5 := by
        push_cast
        rw [(by ring : (1 : ℝ) / (N : ℝ) * 0.5 = 0.5 / (N : ℝ))]
        rw [le_div_iff hN0]
        nlinarith
      calc roundTo 3 (1 - ((0 + 1 : ℕ) : ℝ) / (N : ℝ) * 0.5) ≤ roundTo 3 0.999 :=
          roundTo_mono (by nlinarith)
        _ = 0.999 := roundTo_eq_self (m := 999) (by norm_num)
        _ < 1 := by norm_num

/-- Witness for C6 on a ten-step simulation. -/
theorem C6_intensity_profile_witness :
    (1 ≤ 10) ∧
      ((∀ (k : ℕ) (z : FireZone), (zonesOf (simulate 0 0 15 40 10 5))[k]? = some z →
          z.intensity = roundTo 3 (1 - (((k : ℝ) + 1) / (10 : ℝ)) * 0.5)) ∧
        ((zonesOf (simulate 0 0 15 40 10 5)).getLast?.map FireZone.intensity = some 0.5) ∧
        (10 ≤ 500 →
          (∀ (k : ℕ) (z1 z2 : FireZone),
              (zonesOf (simulate 0 0 15 40 10 5))[k]? = some z1 →
              (zonesOf (simulate 0 0 15 40 10 5))[k + 1]? = some z2 →
              z2.intensity < z1.intensity) ∧
          ∀ z : FireZone, (zonesOf (simulate 0 0 15 40 10 5)).head? = some z →
            z.intensity < 1)) := by
  refine ⟨by norm_num, ?_⟩
  have h := C6_intensity_profile 0 0 15 40 10 5 (by norm_num)
  exact_mod_cast h

/-- Counterexample to C6 as stated: with 2000 steps the first two zone
intensities both round to exactly 1.0, so the sequence is not strictly
decreasing and the first intensity is not strictly below 1.0. -/
theorem C6_counterexample :
    zoneIntensity (simulate 0 0 15 40 2000 5) 0 = some 1 ∧
    zoneIntensity (simulate 0 0 15 40 2000 5) 1 = some 1 := by
  unfold zoneIntensity
  constructor
  · rw [zonesOf_getElem 0 0 15 40 2000 5 (by norm_num)]
    simp only [Option.map_some', zonePure]
    rw [(by push_cast; norm_num : 1 - ((0 + 1 : ℕ) : ℝ) / ((2000 : ℕ) : ℝ) * 0.5 = 0.99975)]
    unfold roundTo
    rw [round_eq_of_bounds (m := 1000) (by norm_num) (by norm_num)]
    norm_num
  · rw [zonesOf_getElem 0 0 15 40 2000 5 (by norm_num)]
    simp only [Option.map_some', zonePure]
    rw [(by push_cast; norm_num : 1 - ((1 + 1 : ℕ) : ℝ) / ((2000 : ℕ) : ℝ) * 0.5 = 0.9995)]
    unfold roundTo
    rw [round_eq_of_bounds (m := 1000) (by norm_num) (by norm_num)]
    norm_num

/-- C3 (amended): `summary.totalTime = N * interval`; `summary.maxDistance`
is `round2 (spread_rate * interval * N)` and equals the last zone's
distance; and `summary.affectedArea` is `round2 (pi * (spread_rate *
interval * N)^2)` — pi times the square of the unrounded maximum distance,
not of the rounded `summary.maxDistance`. -/
theorem C3_summary_fields (lat lon w d : ℝ) (N : ℕ) (ti : ℝ) (hN : 1 ≤ N) :
    simulate lat lon w d N ti = Except.ok (simPure lat lon w d N ti) ∧
    (simPure lat lon w d N ti).summary.totalTime = (N : ℝ) * ti ∧
    (simPure lat lon w d N ti).summary.maxDistance =
      roundTo 2 (calculate_spread_rate (calculate_urban_wind w 20 15) d * ti * (N : ℝ)) ∧
    ((simPure lat lon w d N ti).zones.getLast?.map FireZone.distance =
      some ((simPure lat lon w d N ti).summary.maxDistance)) ∧
    (simPure lat lon w d N ti).summary.affectedArea =
      roundTo 2 (Real.pi *
        (calculate_spread_rate (calculate_urban_wind w 20 15) d * ti * (N : ℝ)) ^ 2) := by
  refine ⟨simulate_eq_ok lat lon w d N ti, rfl, rfl, ?_, rfl⟩
  rcases N with _ | m
  · exact absurd hN (by norm_num)
  · show (List.map _ (List.range (m + 1))).getLast?.map FireZone.distance = _
    rw [List.getLast?_map, List.range_succ, List.getLast?_concat]
    simp only [Option.map_some', zonePure]
    rfl

/-- Witness for C3 on a one-step simulation. -/
theorem C3_summary_fields_witness :
    (1 ≤ 1) ∧
      (simulate 0 0 15 40 1 5 = Except.ok (simPure 0 0 15 40 1 5) ∧
        (simPure 0 0 15 40 1 5).summary.totalTime = ((1 : ℕ) : ℝ) * 5 ∧
        (simPure 0 0 15 40 1 5).summary.maxDistance =
          roundTo 2 (calculate_spread_rate (calculate_urban_wind 15 20 15) 40 * 5 * ((1 : ℕ) : ℝ)) ∧
        ((simPure 0 0 15 40 1 5).zones.getLast?.map FireZone.distance =
          some ((simPure 0 0 15 40 1 5).summary.maxDistance)) ∧
        (simPure 0 0 15 40 1 5).summary.affectedArea =
          roundTo 2 (Real.pi *
            (calculate_spread_rate (calculate_urban_wind 15 20 15) 40 * 5 * ((1 : ℕ) : ℝ)) ^ 2)) :=
  ⟨le_refl 1, C3_summary_fields 0 0 15 40 1 5 (le_refl 1)⟩

/-- The urban wind of a zero base wind is exactly 0. -/
lemma urban_wind_zero : calculate_urban_wind 0 20 15 = 0 := by
  unfold calculate_urban_wind
  rw [zero_mul, roundTo_zero]

/-- The spread rate at wind 0 and density 40 is exactly 26.374. -/
lemma spread_rate_zero_forty : calculate_spread_rate 0 40 = 26.374 := by
  unfold calculate_spread_rate
  have hraw : spread_rate_raw 0 40 = 2400 / 91 := by
    simp only [spread_rate_raw, FUEL_ENERGY, PACKING_RATIO, WIND_COEFFICIENT,
      WIND_EXPONENT, FUEL_MOISTURE, FUEL_DEPTH, FUEL_DENSITY]
    rw [(by norm_num : (0 : ℝ) / 3.6 = 0), Real.zero_rpow (by norm_num)]
    norm_num
  rw [hraw]
  unfold roundTo
  rw [round_eq_of_bounds (m := 26374) (by norm_num) (by norm_num)]
  norm_num

/-- Counterexample to C3 as stated: with wind 0, density 40, one step of
0.7 minutes, the spread rate is exactly 26.374, the unrounded distance is
18.4618 and `maxDistance = 18.46`; the code's affected area is
`round2 (pi * 18.4618^2) = 1070.77`, while pi times the rounded
`maxDistance` squared rounds to `1070.57`. -/
theorem C3_counterexample :
    (simPure 0 0 0 40 1 0.7).summary.affectedArea ≠
      roundTo 2 (Real.pi * (simPure 0 0 0 40 1 0.7).summary.maxDistance ^ 2) := by
  have hsr : calculate_spread_rate (calculate_urban_wind 0 20 15) 40 = 26.374 := by
    rw [urban_wind_zero, spread_rate_zero_forty]
  have harg : calculate_spread_rate (calculate_urban_wind 0 20 15) 40 * 0.7 * ((1 : ℕ) : ℝ) =
      18.4618 := by
    rw [hsr]
    push_cast
    norm_num
  have hmd : (simPure 0 0 0 40 1 0.7).summary.maxDistance = 18.46 := by
    show roundTo 2 (calculate_spread_rate (calculate_urban_wind 0 20 15) 40 * 0.7 *
      ((1 : ℕ) : ℝ)) = 18.46
    rw [harg]
    unfold roundTo
    rw [round_eq_of_bounds (m := 1846) (by norm_num) (by norm_num)]
    norm_num
  have haa : (simPure 0 0 0 40 1 0.7).summary.affectedArea = 1070.77 := by
    show roundTo 2 (Real.pi * (calculate_spread_rate (calculate_urban_wind 0 20 15) 40 * 0.7 *
      ((1 : ℕ) : ℝ)) ^ 2) = 1070.77
    rw [harg, (by norm_num : (18.4618 : ℝ) ^ 2 = 340.83805924)]
    unfold roundTo
    have hlo := Real.pi_gt_d6
    have hhi := Real.pi_lt_d6
    rw [round_eq_of_bounds (m := 107077) (by nlinarith) (by nlinarith)]
    norm_num
  have hrhs : roundTo 2 (Real.pi * (18.46 : ℝ) ^ 2) = 1070.57 := by
    rw [(by norm_num : (18.46 : ℝ) ^ 2 = 340.7716)]
    unfold roundTo
    have hlo := Real.pi_gt_d6
    have hhi := Real.pi_lt_d6
    rw [round_eq_of_bounds (m := 107057) (by nlinarith) (by nlinarith)]
    norm_num
  rw [haa, hmd, hrhs]
  norm_num

end UrbanFire
